import Mathlib

/-!
Shallow embedding of `src/dashboard/dashboard.py` from the
`omie_api_integration` repository: five read-only SQL aggregations over the
financial tables (`contapagar`, `contareceber`, `categorias`, `clientes`),
the five Streamlit dashboard renderers, and the sidebar navigation dispatch.

Amounts are modelled as `Int` (the SQL casts `valor_documento` to numeric);
dates are stored as `DD/MM/YYYY` text and parsed day-first, matching both
`to_date(data_vencimento, 'DD/MM/YYYY')` in SQL and
`pd.to_datetime(..., format="%d/%m/%Y", dayfirst=True)` in pandas.
-/

/-- A calendar date (year, month, day). -/
@[ext]
structure Date where
  year : Nat
  month : Nat
  day : Nat
deriving DecidableEq, Repr

/-- Gregorian leap-year rule, as used by both PostgreSQL and pandas dates. -/
def isLeap (y : Nat) : Bool :=
  (y % 4 == 0 && y % 100 != 0) || y % 400 == 0

/-- Number of days in a given month of a given year. -/
def daysInMonth (y m : Nat) : Nat :=
  if m = 2 then (if isLeap y then 29 else 28)
  else if m = 4 ∨ m = 6 ∨ m = 9 ∨ m = 11 then 30
  else 31

/-- Strict chronological order on dates, lexicographic on (year, month, day). -/
def Date.ltB (a b : Date) : Bool :=
  a.year < b.year ||
    (a.year == b.year &&
      (a.month < b.month || (a.month == b.month && a.day < b.day)))

def Date.lt (a b : Date) : Prop := Date.ltB a b = true

def Date.le (a b : Date) : Prop := Date.lt a b ∨ a = b

instance : DecidableRel Date.lt := fun a b =>
  inferInstanceAs (Decidable (_ = true))

instance : DecidableRel Date.le := fun a b =>
  inferInstanceAs (Decidable (_ ∨ _))

/-- A digit character to its numeric value. -/
def digit? (c : Char) : Option Nat :=
  if '0' ≤ c ∧ c ≤ '9' then some (c.toNat - '0'.toNat) else none

def toNatDigitsAux (acc : Nat) : List Char → Option Nat
  | [] => some acc
  | c :: cs =>
    match digit? c with
    | some d => toNatDigitsAux (10 * acc + d) cs
    | none => none

/-- Parse a nonempty all-digit character string to a natural number. -/
def toNatDigits (cs : List Char) : Option Nat :=
  match cs with
  | [] => none
  | _ :: _ => toNatDigitsAux 0 cs

/-- Split a character list on the `/` separator. -/
def splitSlash : List Char → List (List Char)
  | [] => [[]]
  | c :: cs =>
    if c = '/' then [] :: splitSlash cs
    else
      match splitSlash cs with
      | [] => [[c]]
      | g :: gs => (c :: g) :: gs

/-- Day-first `DD/MM/YYYY` date parsing, as performed by
`to_date(data_vencimento, 'DD/MM/YYYY')` in the SQL queries and by
`pd.to_datetime(despesas["data_vencimento"], format="%d/%m/%Y", dayfirst=True)`
in `dashboard_fluxo_caixa`. Malformed text yields `none` (the Python layers
raise). -/
def parseDateDMY (s : String) : Option Date :=
  match splitSlash s.toList with
  | [ds, ms, ys] =>
    match toNatDigits ds, toNatDigits ms, toNatDigits ys with
    | some d, some m, some y =>
      if 1 ≤ m ∧ m ≤ 12 ∧ 1 ≤ d ∧ d ≤ daysInMonth y m then
        some ⟨y, m, d⟩
      else none
    | _, _, _ => none
  | _ => none

/-- `DATE_TRUNC('month', d)`: the first calendar day of the month of `d`. -/
def monthTrunc (d : Date) : Date := ⟨d.year, d.month, 1⟩

/-- A month as a single index, used to step through consecutive months. -/
def monthIndex (d : Date) : Nat := d.year * 12 + (d.month - 1)

/-- The last calendar day of the month with the given index: the bin label
produced by pandas `pd.Grouper(freq="M")` (month-end frequency). -/
def monthEndOfIndex (i : Nat) : Date :=
  ⟨i / 12, i % 12 + 1, daysInMonth (i / 12) (i % 12 + 1)⟩

/-- A row of `contapagar` as the dashboard queries see it: `data_vencimento`
text, `valor_documento` cast to numeric, and the two join keys. -/
structure CPRow where
  data_vencimento : String
  valor_documento : Int
  codigo_categoria : String
  codigo_cliente_fornecedor : String
deriving DecidableEq, Repr

/-- A projected row with just `data_vencimento` and the cast
`valor_documento`, as selected by the cash-flow and trend queries. -/
structure ContaRow where
  data_vencimento : String
  valor_documento : Int
deriving DecidableEq, Repr

def CPRow.toConta (r : CPRow) : ContaRow :=
  ⟨r.data_vencimento, r.valor_documento⟩

/-- A row of `categorias`. -/
structure Categoria where
  codigo : String
  descricao : String
deriving DecidableEq, Repr

/-- A row of `clientes`. -/
structure Cliente where
  codigo_cliente_integracao : String
  razao_social : String
deriving DecidableEq, Repr

/-- The database visible to the dashboard, plus `CURRENT_DATE`. -/
structure DB where
  contapagar : List CPRow
  contareceber : List ContaRow
  categorias : List Categoria
  clientes : List Cliente
  today : Date

/-- Attach the parsed due date to every row, failing if any date is
malformed (a failed `to_date` aborts the whole SQL query). -/
def rowsWithDates (due : α → String) : List α → Option (List (α × Date))
  | [] => some []
  | r :: rs =>
    match parseDateDMY (due r), rowsWithDates due rs with
    | some d, some ps => some ((r, d) :: ps)
    | _, _ => none

/-- Parse every row of a projected table to a (due date, amount) pair. -/
def rowsParse (rows : List ContaRow) : Option (List (Date × Int)) :=
  (rowsWithDates ContaRow.data_vencimento rows).map
    (fun ps => ps.map (fun p => (p.2, p.1.valor_documento)))

/-- `despesas["valor_documento"].sum()`: total of the amount column. -/
def total_valor (rows : List ContaRow) : Int :=
  (rows.map ContaRow.valor_documento).sum

/-- `saldo = total_receitas - total_despesas` in `dashboard_fluxo_caixa`. -/
def saldo (despesas receitas : List ContaRow) : Int :=
  total_valor receitas - total_valor despesas

/-- Descending order on aggregate totals: `ORDER BY total DESC`. -/
def relDesc (a b : String × Int) : Prop := b.2 ≤ a.2

instance : DecidableRel relDesc := fun a b =>
  inferInstanceAs (Decidable (_ ≤ _))

instance : IsTotal (String × Int) relDesc := by
  constructor
  intro a b
  unfold relDesc
  exact Int.le_total b.2 a.2

instance : IsTrans (String × Int) relDesc :=
  ⟨fun _ _ _ h h' => le_trans h' h⟩

instance : IsTotal Date Date.le := by
  constructor
  intro a b
  obtain ⟨ay, am, ad⟩ := a
  obtain ⟨cy, cm, cd⟩ := b
  simp only [Date.le, Date.lt, Date.ltB, Date.ext_iff, Bool.or_eq_true,
    Bool.and_eq_true, decide_eq_true_eq, beq_iff_eq]
  omega

instance : IsTrans Date Date.le := by
  constructor
  intro a b c hab hbc
  obtain ⟨ay, am, ad⟩ := a
  obtain ⟨by', bm, bd⟩ := b
  obtain ⟨cy, cm, cd⟩ := c
  simp only [Date.le, Date.lt, Date.ltB, Date.ext_iff, Bool.or_eq_true,
    Bool.and_eq_true, decide_eq_true_eq, beq_iff_eq] at hab hbc ⊢
  omega

/-- `GROUP BY` key with `SUM(...)` per group, then `ORDER BY total DESC`:
shared shape of the category and supplier aggregation queries. -/
def groupSumDesc (pairs : List (String × Int)) : List (String × Int) :=
  let keys := (pairs.map Prod.fst).dedup
  List.insertionSort relDesc
    (keys.map (fun k =>
      (k, ((pairs.filter (fun p => p.1 = k)).map Prod.snd).sum)))

/-- `load_fluxo_caixa_data`: the projected expense and revenue tables. -/
def load_fluxo_caixa_data (db : DB) : List ContaRow × List ContaRow :=
  (db.contapagar.map CPRow.toConta, db.contareceber)

/-- `load_despesas_por_categoria`: join `contapagar` to `categorias` on the
category code, group by `descricao`, sum the cast amounts, sort descending. -/
def load_despesas_por_categoria (db : DB) : List (String × Int) :=
  groupSumDesc
    (db.contapagar.flatMap (fun r =>
      (db.categorias.filter (fun c => c.codigo = r.codigo_categoria)).map
        (fun c => (c.descricao, r.valor_documento))))

/-- `load_despesas_por_fornecedor`: join `contapagar` to `clientes` on the
supplier code, group by `razao_social`, sum the cast amounts, sort
descending. -/
def load_despesas_por_fornecedor (db : DB) : List (String × Int) :=
  groupSumDesc
    (db.contapagar.flatMap (fun r =>
      (db.clientes.filter
          (fun c => c.codigo_cliente_integracao = r.codigo_cliente_fornecedor)).map
        (fun c => (c.razao_social, r.valor_documento))))

/-- `load_pagamentos_vencidos`: `SELECT * FROM contapagar WHERE
to_date(data_vencimento, 'DD/MM/YYYY') < CURRENT_DATE`. Every row's date is
parsed; the filter keeps rows strictly before today. -/
def load_pagamentos_vencidos (db : DB) : Option (List CPRow) :=
  (rowsWithDates CPRow.data_vencimento db.contapagar).map
    (fun ps => (ps.filter (fun p => Date.ltB p.2 db.today)).map Prod.fst)

/-- The `GROUP BY DATE_TRUNC('month', ...)` aggregation with
`ORDER BY mes`, on already-parsed (due date, amount) pairs. -/
def tendenciasAux (rows : List (Date × Int)) : List (Date × Int) :=
  let months := (rows.map (fun r => monthTrunc r.1)).dedup
  (List.insertionSort Date.le months).map (fun m =>
    (m, ((rows.filter (fun r => monthTrunc r.1 = m)).map Prod.snd).sum))

/-- `load_tendencias_despesas`: monthly expense aggregation in SQL, labels
truncated to the first of the month, sorted ascending by month. -/
def load_tendencias_despesas (db : DB) : Option (List (Date × Int)) :=
  (rowsParse (db.contapagar.map CPRow.toConta)).map tendenciasAux

/-- The pandas grouping in `dashboard_fluxo_caixa`:
`despesas.groupby(pd.Grouper(key="data_vencimento", freq="M")).sum()`.
`freq="M"` bins by calendar month with month-END labels, producing one bin
for every month from the earliest to the latest due date (empty months sum
to zero), in ascending order. -/
def despesas_monthly (rows : List (Date × Int)) : List (Date × Int) :=
  match rows.map (fun r => monthIndex r.1) with
  | [] => []
  | i :: is =>
    let lo := is.foldl Nat.min i
    let hi := is.foldl Nat.max i
    (List.range (hi + 1 - lo)).map (fun k =>
      (monthEndOfIndex (lo + k),
       ((rows.filter (fun r => monthIndex r.1 = lo + k)).map Prod.snd).sum))

/-- One Streamlit UI element emitted by a dashboard renderer. Charts and
tables record the data they display; `error` marks a raised exception
(malformed date aborting the query or conversion). -/
inductive Widget where
  | header : String → Widget
  | metricI : String → Int → Widget
  | tableN : Nat → Widget
  | lineChartD : List (Date × Int) → Widget
  | barChartN : Nat → Widget
  | error : Widget
deriving DecidableEq, Repr

/-- `dashboard_fluxo_caixa`: three metrics, then the monthly expense line
chart (the metrics are emitted before the date conversion, so they render
even when a later parse fails). -/
def dashboard_fluxo_caixa (db : DB) : List Widget :=
  let despesas := (load_fluxo_caixa_data db).1
  let receitas := (load_fluxo_caixa_data db).2
  [Widget.header "Visão Geral do Fluxo de Caixa",
   Widget.metricI "Total Despesas" (total_valor despesas),
   Widget.metricI "Total Receitas" (total_valor receitas),
   Widget.metricI "Saldo (Receitas - Despesas)" (saldo despesas receitas)] ++
  (match rowsParse despesas with
   | some prows => [Widget.lineChartD (despesas_monthly prows)]
   | none => [Widget.error])

/-- `dashboard_despesas_categoria`: table always; bar chart only when the
aggregate is non-empty (`if not df.empty`). -/
def dashboard_despesas_categoria (db : DB) : List Widget :=
  let df := load_despesas_por_categoria db
  [Widget.header "Despesas por Categoria", Widget.tableN df.length] ++
  (if df.isEmpty then [] else [Widget.barChartN df.length])

/-- `dashboard_despesas_fornecedor`: table always; bar chart only when the
aggregate is non-empty. -/
def dashboard_despesas_fornecedor (db : DB) : List Widget :=
  let df := load_despesas_por_fornecedor db
  [Widget.header "Despesas por Fornecedor", Widget.tableN df.length] ++
  (if df.isEmpty then [] else [Widget.barChartN df.length])

/-- `dashboard_pagamentos_vencidos`: the overdue table, no chart. -/
def dashboard_pagamentos_vencidos (db : DB) : List Widget :=
  match load_pagamentos_vencidos db with
  | some df => [Widget.header "Pagamentos Vencidos", Widget.tableN df.length]
  | none => [Widget.header "Pagamentos Vencidos", Widget.error]

/-- `dashboard_tendencias`: the monthly table, then an unconditional line
chart (no emptiness check in the source). -/
def dashboard_tendencias (db : DB) : List Widget :=
  match load_tendencias_despesas db with
  | some df =>
    [Widget.header "Tendências Mensais de Despesas", Widget.tableN df.length,
     Widget.lineChartD df]
  | none => [Widget.header "Tendências Mensais de Despesas", Widget.error]

/-- The `dashboards` dict in `main`: label to renderer, in source order. -/
def dashboards : List (String × (DB → List Widget)) :=
  [("Fluxo de Caixa", dashboard_fluxo_caixa),
   ("Despesas por Categoria", dashboard_despesas_categoria),
   ("Despesas por Fornecedor", dashboard_despesas_fornecedor),
   ("Pagamentos Vencidos", dashboard_pagamentos_vencidos),
   ("Tendências de Despesas", dashboard_tendencias)]

/-- `main`: the sidebar radio over `list(dashboards.keys())` followed by
`dashboards[escolha]()` — look up the selected label and run its renderer.
(Named `main'` because Lean reserves `main` for an entry point.) -/
def main' (db : DB) (escolha : String) : Option (List Widget) :=
  (dashboards.find? (fun p => p.1 == escolha)).map (fun p => p.2 db)

/-- Whether a widget list contains any chart. -/
def hasChart (ws : List Widget) : Bool :=
  ws.any (fun w =>
    match w with
    | Widget.lineChartD _ => true
    | Widget.barChartN _ => true
    | _ => false)

/-! ### Helper lemmas -/

theorem rowsWithDates_mem {α : Type} (due : α → String) (rows : List α) :
    ∀ ps, rowsWithDates due rows = some ps →
      ∀ r d, ((r, d) ∈ ps ↔ r ∈ rows ∧ parseDateDMY (due r) = some d) := by
  induction rows with
  | nil =>
    intro ps h r d
    simp only [rowsWithDates, Option.some.injEq] at h
    subst h
    simp
  | cons a rs ih =>
    intro ps h r d
    simp only [rowsWithDates] at h
    cases hd : parseDateDMY (due a) <;> rw [hd] at h
    · simp at h
    · cases hr : rowsWithDates due rs <;> rw [hr] at h
      · simp at h
      · rename_i d0 qs
        simp only [Option.some.injEq] at h
        subst h
        simp only [List.mem_cons, Prod.mk.injEq, ih qs hr r d]
        constructor
        · rintro (⟨rfl, rfl⟩ | ⟨hm, hp⟩)
          · exact ⟨Or.inl rfl, hd⟩
          · exact ⟨Or.inr hm, hp⟩
        · rintro ⟨rfl | hm, hp⟩
          · exact Or.inl ⟨rfl, by rw [hd] at hp; exact (Option.some.injEq _ _ ▸ hp).symm⟩
          · exact Or.inr ⟨hm, hp⟩

theorem rowsWithDates_map_fst {α : Type} (due : α → String) (rows : List α) :
    ∀ ps, rowsWithDates due rows = some ps → ps.map Prod.fst = rows := by
  induction rows with
  | nil =>
    intro ps h
    simp only [rowsWithDates, Option.some.injEq] at h
    subst h
    rfl
  | cons a rs ih =>
    intro ps h
    simp only [rowsWithDates] at h
    cases hd : parseDateDMY (due a) <;> rw [hd] at h
    · simp at h
    · cases hr : rowsWithDates due rs <;> rw [hr] at h
      · simp at h
      · rename_i d0 qs
        simp only [Option.some.injEq] at h
        subst h
        simp [ih qs hr]

theorem foldl_min_le (l : List Nat) :
    ∀ a j, (j = a ∨ j ∈ l) → l.foldl Nat.min a ≤ j := by
  induction l with
  | nil =>
    intro a j h
    rcases h with rfl | h
    · exact Nat.le_refl j
    · exact absurd h (List.not_mem_nil j)
  | cons b t ih =>
    intro a j h
    simp only [List.foldl_cons]
    rcases h with rfl | h
    · exact Nat.le_trans (ih (Nat.min j b) (Nat.min j b) (Or.inl rfl)) (Nat.min_le_left j b)
    · rcases List.mem_cons.mp h with rfl | hm
      · exact Nat.le_trans (ih (Nat.min a j) (Nat.min a j) (Or.inl rfl)) (Nat.min_le_right a j)
      · exact ih (Nat.min a b) j (Or.inr hm)

theorem le_foldl_max (l : List Nat) :
    ∀ a j, (j = a ∨ j ∈ l) → j ≤ l.foldl Nat.max a := by
  induction l with
  | nil =>
    intro a j h
    rcases h with rfl | h
    · exact Nat.le_refl j
    · exact absurd h (List.not_mem_nil j)
  | cons b t ih =>
    intro a j h
    simp only [List.foldl_cons]
    rcases h with rfl | h
    · exact Nat.le_trans (Nat.le_max_left j b) (ih (Nat.max j b) (Nat.max j b) (Or.inl rfl))
    · rcases List.mem_cons.mp h with rfl | hm
      · exact Nat.le_trans (Nat.le_max_right a j) (ih (Nat.max a j) (Nat.max a j) (Or.inl rfl))
      · exact ih (Nat.max a b) j (Or.inr hm)
theorem sum_buckets {α κ : Type} [DecidableEq κ] (key : α → κ) (val : α → Int) :
    ∀ (keys : List κ) (rows : List α), keys.Nodup →
      (∀ r ∈ rows, key r ∈ keys) →
      (keys.map (fun k => ((rows.filter (fun r => key r = k)).map val).sum)).sum
        = (rows.map val).sum := by
  intro keys
  induction keys with
  | nil =>
    intro rows _ hcov
    cases rows with
    | nil => simp
    | cons r rs => exact absurd (hcov r (List.mem_cons_self r rs)) (List.not_mem_nil _)
  | cons k ks ih =>
    intro rows hnd hcov
    rw [List.nodup_cons] at hnd
    simp only [List.map_cons, List.sum_cons]
    have hbucket : ∀ k' ∈ ks,
        rows.filter (fun r => decide (key r = k'))
          = (rows.filter (fun r => !(decide (key r = k)))).filter
              (fun r => decide (key r = k')) := by
      intro k' hk'
      rw [List.filter_filter]
      apply List.filter_congr
      intro r _
      by_cases hkk : key r = k'
      · have hkk' : k' ≠ k := by
          intro h
          exact hnd.1 (h ▸ hk')
        have hne : ¬(key r = k) := by
          rw [hkk]
          exact hkk'
        simp [hkk, hne, hkk']
      · simp [hkk]
    have hmaps :
        (ks.map (fun k' => ((rows.filter (fun r => key r = k')).map val).sum))
          = ks.map (fun k' =>
              (((rows.filter (fun r => !(decide (key r = k)))).filter
                  (fun r => decide (key r = k'))).map val).sum) := by
      apply List.map_congr_left
      intro k' hk'
      rw [hbucket k' hk']
    rw [hmaps]
    rw [ih (rows.filter (fun r => !(decide (key r = k)))) hnd.2 ?hcov']
    case hcov' =>
      intro r hr
      rw [List.mem_filter] at hr
      have := hcov r hr.1
      rw [List.mem_cons] at this
      rcases this with heq | hm
      · exfalso
        rw [heq] at hr
        simp at hr
      · exact hm
    have hperm : List.Perm
        (rows.filter (fun r => decide (key r = k))
          ++ rows.filter (fun r => !(decide (key r = k)))) rows :=
      List.filter_append_perm _ rows
    calc ((rows.filter (fun r => decide (key r = k))).map val).sum
          + ((rows.filter (fun r => !(decide (key r = k)))).map val).sum
        = (((rows.filter (fun r => decide (key r = k))
            ++ rows.filter (fun r => !(decide (key r = k)))).map val)).sum := by
          rw [List.map_append, List.sum_append]
      _ = (rows.map val).sum := (hperm.map val).sum_eq

theorem groupSumDesc_sorted (pairs : List (String × Int)) :
    List.Sorted relDesc (groupSumDesc pairs) :=
  List.sorted_insertionSort relDesc _

theorem sorted_head_max {l : List (String × Int)} (hs : List.Sorted relDesc l) :
    ∀ h t, l = h :: t → ∀ x ∈ l, x.2 ≤ h.2 := by
  intro h t hl x hx
  subst hl
  rcases List.mem_cons.mp hx with rfl | hm
  · exact le_refl x.2
  · exact (List.sorted_cons.mp hs).1 x hm

theorem tendenciasAux_mem_fst (prows : List (Date × Int)) :
    ∀ m ∈ (tendenciasAux prows).map Prod.fst,
      ∃ p ∈ prows, monthTrunc p.1 = m := by
  intro m hm
  unfold tendenciasAux at hm
  simp only [List.map_map] at hm
  rw [List.mem_map] at hm
  obtain ⟨m', hm', hee⟩ := hm
  have : m' = m := hee
  subst this
  rw [(List.perm_insertionSort Date.le _).mem_iff, List.mem_dedup,
    List.mem_map] at hm'
  obtain ⟨p, hp, hpt⟩ := hm'
  exact ⟨p, hp, hpt⟩

theorem tendenciasAux_map_fst (prows : List (Date × Int)) :
    (tendenciasAux prows).map Prod.fst
      = List.insertionSort Date.le ((prows.map (fun r => monthTrunc r.1)).dedup) := by
  unfold tendenciasAux
  rw [List.map_map]
  exact List.map_id _

theorem tendenciasAux_sorted (prows : List (Date × Int)) :
    List.Sorted Date.le ((tendenciasAux prows).map Prod.fst) := by
  rw [tendenciasAux_map_fst]
  exact List.sorted_insertionSort Date.le _

theorem tendenciasAux_sum (prows : List (Date × Int)) :
    ((tendenciasAux prows).map Prod.snd).sum = (prows.map Prod.snd).sum := by
  unfold tendenciasAux
  rw [List.map_map]
  have hkeys :
      ((prows.map (fun r => monthTrunc r.1)).dedup).Nodup :=
    List.nodup_dedup _
  have hnd :
      (List.insertionSort Date.le ((prows.map (fun r => monthTrunc r.1)).dedup)).Nodup :=
    (List.perm_insertionSort Date.le _).nodup_iff.mpr hkeys
  have hcov : ∀ r ∈ prows,
      monthTrunc r.1
        ∈ List.insertionSort Date.le ((prows.map (fun r => monthTrunc r.1)).dedup) := by
    intro r hr
    rw [(List.perm_insertionSort Date.le _).mem_iff, List.mem_dedup]
    exact List.mem_map.mpr ⟨r, hr, rfl⟩
  exact sum_buckets (fun r => monthTrunc r.1) Prod.snd _ prows hnd hcov

theorem rowsParse_map_snd (rows : List ContaRow) :
    ∀ prows, rowsParse rows = some prows →
      prows.map Prod.snd = rows.map ContaRow.valor_documento := by
  intro prows h
  unfold rowsParse at h
  cases hps : rowsWithDates ContaRow.data_vencimento rows <;> rw [hps] at h
  · simp at h
  · rename_i ps
    simp only [Option.map_some', Option.some.injEq] at h
    subst h
    rw [List.map_map]
    have hfst := rowsWithDates_map_fst ContaRow.data_vencimento rows ps hps
    calc ps.map (Prod.snd ∘ fun p => (p.2, p.1.valor_documento))
        = ps.map (fun p => p.1.valor_documento) := rfl
      _ = (ps.map Prod.fst).map ContaRow.valor_documento := by rw [List.map_map]; rfl
      _ = rows.map ContaRow.valor_documento := by rw [hfst]
theorem despesas_monthly_sum (prows : List (Date × Int)) :
    ((despesas_monthly prows).map Prod.snd).sum = (prows.map Prod.snd).sum := by
  cases hmap : prows.map (fun r => monthIndex r.1) with
  | nil =>
    have hnil : prows = [] := List.map_eq_nil_iff.mp hmap
    rw [hnil]
    simp [despesas_monthly]
  | cons i is =>
    have hout : despesas_monthly prows
        = (List.range (is.foldl Nat.max i + 1 - is.foldl Nat.min i)).map (fun k =>
            (monthEndOfIndex (is.foldl Nat.min i + k),
             ((prows.filter
                 (fun r => monthIndex r.1 = is.foldl Nat.min i + k)).map Prod.snd).sum)) := by
      unfold despesas_monthly
      rw [hmap]
    rw [hout, List.map_map]
    have hcomp : (List.range (is.foldl Nat.max i + 1 - is.foldl Nat.min i)).map
        (Prod.snd ∘ fun k => (monthEndOfIndex (is.foldl Nat.min i + k),
          ((prows.filter
              (fun r => monthIndex r.1 = is.foldl Nat.min i + k)).map Prod.snd).sum))
        = ((List.range (is.foldl Nat.max i + 1 - is.foldl Nat.min i)).map
              (fun k => is.foldl Nat.min i + k)).map
            (fun k' => ((prows.filter
                (fun r => monthIndex r.1 = k')).map Prod.snd).sum) := by
      rw [List.map_map]
      rfl
    rw [hcomp]
    apply sum_buckets (fun r => monthIndex r.1) Prod.snd
    · apply List.Nodup.map
      · intro a b hab
        dsimp only at hab
        omega
      · exact List.nodup_range _
    · intro r hr
      have hmem : monthIndex r.1 ∈ i :: is := by
        rw [← hmap]
        exact List.mem_map.mpr ⟨r, hr, rfl⟩
      have h1 : is.foldl Nat.min i ≤ monthIndex r.1 :=
        foldl_min_le is i (monthIndex r.1) (List.mem_cons.mp hmem)
      have h2 : monthIndex r.1 ≤ is.foldl Nat.max i :=
        le_foldl_max is i (monthIndex r.1) (List.mem_cons.mp hmem)
      rw [List.mem_map]
      refine ⟨monthIndex r.1 - is.foldl Nat.min i, List.mem_range.mpr ?_, ?_⟩
      · omega
      · omega
/-! ### Claims -/

/-- C1: In the cash-flow overview, the displayed balance equals total revenue
minus total expenses exactly, for every pair of expense and revenue tables,
including when either total (or both) is zero. -/
theorem c1_saldo_correct (despesas receitas : List ContaRow) (db : DB) :
    saldo despesas receitas = total_valor receitas - total_valor despesas
    ∧ Widget.metricI "Saldo (Receitas - Despesas)"
        (total_valor (load_fluxo_caixa_data db).2
          - total_valor (load_fluxo_caixa_data db).1)
        ∈ dashboard_fluxo_caixa db := by
  constructor
  · rfl
  · unfold dashboard_fluxo_caixa saldo
    cases h : rowsParse (load_fluxo_caixa_data db).1 <;>
      simp [h, List.mem_append]

/-- C7: Parsing the due-date text "05/01/2024" with the day-first DD/MM/YYYY
format yields the date January 5, 2024, not May 1, 2024. -/
theorem c7_dayfirst :
    parseDateDMY "05/01/2024" = some ⟨2024, 1, 5⟩
    ∧ parseDateDMY "05/01/2024" ≠ some ⟨2024, 5, 1⟩ := by decide

/-- C8: For every expense table, the computed total of expenses equals the sum
of the amount of each row, and this value is invariant under any permutation
of the rows. -/
theorem c8_total_perm (rows rows' : List ContaRow) (hperm : rows.Perm rows') :
    total_valor rows = (rows.map ContaRow.valor_documento).sum
    ∧ total_valor rows = total_valor rows' :=
  ⟨rfl, (hperm.map ContaRow.valor_documento).sum_eq⟩

theorem c8_total_perm_witness :
    total_valor [⟨"01/01/2024", 7⟩, ⟨"02/01/2024", 5⟩]
      = ([(⟨"01/01/2024", 7⟩ : ContaRow), ⟨"02/01/2024", 5⟩].map
          ContaRow.valor_documento).sum
    ∧ total_valor [⟨"01/01/2024", 7⟩, ⟨"02/01/2024", 5⟩]
      = total_valor [⟨"02/01/2024", 5⟩, ⟨"01/01/2024", 7⟩] :=
  c8_total_perm [⟨"01/01/2024", 7⟩, ⟨"02/01/2024", 5⟩]
    [⟨"02/01/2024", 5⟩, ⟨"01/01/2024", 7⟩] (by decide)

/-- C6 counterexample: on an empty database the monthly-trend view still
renders its line chart (with zero points) instead of skipping it, so "charts
are skipped" fails for that view. -/
theorem c6_counterexample :
    dashboard_tendencias ⟨[], [], [], [], ⟨2024, 1, 1⟩⟩
      = [Widget.header "Tendências Mensais de Despesas", Widget.tableN 0,
         Widget.lineChartD []]
    ∧ hasChart (dashboard_tendencias ⟨[], [], [], [], ⟨2024, 1, 1⟩⟩) = true := by
  decide

/-- C6 amended: for each of the five report views an empty underlying table is
a non-error outcome: every aggregation returns an empty table, metrics render
as zero and tables render empty; the category and supplier bar charts are
skipped, while the cash-flow and monthly-trend line charts still render (with
no data points). -/
theorem c6_empty_render :
    load_fluxo_caixa_data ⟨[], [], [], [], ⟨2024, 1, 1⟩⟩ = ([], [])
    ∧ load_despesas_por_categoria ⟨[], [], [], [], ⟨2024, 1, 1⟩⟩ = []
    ∧ load_despesas_por_fornecedor ⟨[], [], [], [], ⟨2024, 1, 1⟩⟩ = []
    ∧ load_pagamentos_vencidos ⟨[], [], [], [], ⟨2024, 1, 1⟩⟩ = some []
    ∧ load_tendencias_despesas ⟨[], [], [], [], ⟨2024, 1, 1⟩⟩ = some []
    ∧ dashboard_fluxo_caixa ⟨[], [], [], [], ⟨2024, 1, 1⟩⟩
      = [Widget.header "Visão Geral do Fluxo de Caixa",
         Widget.metricI "Total Despesas" 0,
         Widget.metricI "Total Receitas" 0,
         Widget.metricI "Saldo (Receitas - Despesas)" 0,
         Widget.lineChartD []]
    ∧ dashboard_despesas_categoria ⟨[], [], [], [], ⟨2024, 1, 1⟩⟩
      = [Widget.header "Despesas por Categoria", Widget.tableN 0]
    ∧ hasChart (dashboard_despesas_categoria ⟨[], [], [], [], ⟨2024, 1, 1⟩⟩)
      = false
    ∧ dashboard_despesas_fornecedor ⟨[], [], [], [], ⟨2024, 1, 1⟩⟩
      = [Widget.header "Despesas por Fornecedor", Widget.tableN 0]
    ∧ hasChart (dashboard_despesas_fornecedor ⟨[], [], [], [], ⟨2024, 1, 1⟩⟩)
      = false
    ∧ dashboard_pagamentos_vencidos ⟨[], [], [], [], ⟨2024, 1, 1⟩⟩
      = [Widget.header "Pagamentos Vencidos", Widget.tableN 0]
    ∧ dashboard_tendencias ⟨[], [], [], [], ⟨2024, 1, 1⟩⟩
      = [Widget.header "Tendências Mensais de Despesas", Widget.tableN 0,
         Widget.lineChartD []] := by
  decide

/-- C3 counterexample: the spec scenario bucketed by the cash-flow chart's
pandas grouping is labelled with month-END dates (2024-01-31, 2024-02-29),
not first-of-month dates, so the claimed output [(2024-01-01, 150),
(2024-02-01, 30)] is wrong for that code path. -/
theorem c3_counterexample :
    despesas_monthly [(⟨2024, 1, 1⟩, 100), (⟨2024, 1, 15⟩, 50), (⟨2024, 2, 1⟩, 30)]
      = [(⟨2024, 1, 31⟩, 150), (⟨2024, 2, 29⟩, 30)]
    ∧ despesas_monthly [(⟨2024, 1, 1⟩, 100), (⟨2024, 1, 15⟩, 50), (⟨2024, 2, 1⟩, 30)]
      ≠ [(⟨2024, 1, 1⟩, 150), (⟨2024, 2, 1⟩, 30)]
    ∧ Widget.lineChartD [(⟨2024, 1, 31⟩, 150), (⟨2024, 2, 29⟩, 30)]
        ∈ dashboard_fluxo_caixa ⟨[⟨"01/01/2024", 100, "c", "f"⟩,
            ⟨"15/01/2024", 50, "c", "f"⟩, ⟨"01/02/2024", 30, "c", "f"⟩],
            [], [], [], ⟨2024, 6, 15⟩⟩ := by
  decide

/-- C3 amended: the SQL monthly aggregation labels each bucket with the first
calendar day of its month and sums the amounts of that month, and on the
scenario rows yields [(2024-01-01, 150), (2024-02-01, 30)]; the cash-flow
chart's pandas grouping buckets the same months but labels them with the last
calendar day, yielding [(2024-01-31, 150), (2024-02-29, 30)]. -/
theorem c3_monthly_buckets (prows : List (Date × Int)) :
    (∀ p ∈ tendenciasAux prows,
      p.1.day = 1
      ∧ p.2 = ((prows.filter (fun r => monthTrunc r.1 = p.1)).map Prod.snd).sum)
    ∧ tendenciasAux [(⟨2024, 1, 1⟩, 100), (⟨2024, 1, 15⟩, 50), (⟨2024, 2, 1⟩, 30)]
      = [(⟨2024, 1, 1⟩, 150), (⟨2024, 2, 1⟩, 30)]
    ∧ despesas_monthly [(⟨2024, 1, 1⟩, 100), (⟨2024, 1, 15⟩, 50), (⟨2024, 2, 1⟩, 30)]
      = [(⟨2024, 1, 31⟩, 150), (⟨2024, 2, 29⟩, 30)] := by
  refine ⟨?_, by decide, by decide⟩
  intro p hp
  unfold tendenciasAux at hp
  rw [List.mem_map] at hp
  obtain ⟨m, hm, rfl⟩ := hp
  refine ⟨?_, rfl⟩
  rw [(List.perm_insertionSort Date.le _).mem_iff, List.mem_dedup,
    List.mem_map] at hm
  obtain ⟨r, hr, rfl⟩ := hm
  rfl

theorem c3_monthly_buckets_witness :
    ((⟨2024, 1, 1⟩, (150 : Int)) : Date × Int).1.day = 1
    ∧ ((⟨2024, 1, 1⟩, (150 : Int)) : Date × Int).2
      = (([((⟨2024, 1, 1⟩ : Date), (100 : Int)), (⟨2024, 1, 15⟩, 50),
          (⟨2024, 2, 1⟩, 30)].filter
            (fun r => monthTrunc r.1 = (⟨2024, 1, 1⟩ : Date))).map Prod.snd).sum :=
  (c3_monthly_buckets
      [(⟨2024, 1, 1⟩, 100), (⟨2024, 1, 15⟩, 50), (⟨2024, 2, 1⟩, 30)]).1
    (⟨2024, 1, 1⟩, 150) (by decide)
/-- C2: The overdue-payments operation returns exactly the accounts-payable
rows whose due date, parsed day-first as DD/MM/YYYY, is strictly before the
current system date: a row with due date before today is included, and a row
with due date equal to or after today is excluded. -/
theorem c2_vencidos (db : DB) (out : List CPRow)
    (hout : load_pagamentos_vencidos db = some out)
    (r : CPRow) (hr : r ∈ db.contapagar)
    (d : Date) (hd : parseDateDMY r.data_vencimento = some d) :
    r ∈ out ↔ Date.lt d db.today := by
  unfold load_pagamentos_vencidos at hout
  cases hps : rowsWithDates CPRow.data_vencimento db.contapagar <;>
    rw [hps] at hout
  · simp at hout
  · rename_i ps
    simp only [Option.map_some', Option.some.injEq] at hout
    subst hout
    constructor
    · intro hro
      rw [List.mem_map] at hro
      obtain ⟨p, hpf, rfl⟩ := hro
      rw [List.mem_filter] at hpf
      have hmem := (rowsWithDates_mem CPRow.data_vencimento db.contapagar ps
        hps p.1 p.2).mp (by rw [Prod.mk.eta]; exact hpf.1)
      have hdd : p.2 = d := by
        have h2 := hmem.2
        rw [hd] at h2
        exact (Option.some.injEq _ _ ▸ h2).symm
      rw [← hdd]
      exact hpf.2
    · intro hlt
      rw [List.mem_map]
      refine ⟨(r, d), ?_, rfl⟩
      rw [List.mem_filter]
      refine ⟨(rowsWithDates_mem CPRow.data_vencimento db.contapagar ps
        hps r d).mpr ⟨hr, hd⟩, hlt⟩

theorem c2_vencidos_witness :
    ((⟨"10/06/2024", 100, "c", "f"⟩ : CPRow)
        ∈ [(⟨"10/06/2024", 100, "c", "f"⟩ : CPRow)]
      ↔ Date.lt ⟨2024, 6, 10⟩ ⟨2024, 6, 15⟩)
    ∧ ((⟨"15/06/2024", 200, "c", "f"⟩ : CPRow)
        ∈ [(⟨"10/06/2024", 100, "c", "f"⟩ : CPRow)]
      ↔ Date.lt ⟨2024, 6, 15⟩ ⟨2024, 6, 15⟩) :=
  ⟨c2_vencidos
      ⟨[⟨"10/06/2024", 100, "c", "f"⟩, ⟨"15/06/2024", 200, "c", "f"⟩],
        [], [], [], ⟨2024, 6, 15⟩⟩
      [⟨"10/06/2024", 100, "c", "f"⟩] (by decide)
      ⟨"10/06/2024", 100, "c", "f"⟩ (by decide) ⟨2024, 6, 10⟩ (by decide),
    c2_vencidos
      ⟨[⟨"10/06/2024", 100, "c", "f"⟩, ⟨"15/06/2024", 200, "c", "f"⟩],
        [], [], [], ⟨2024, 6, 15⟩⟩
      [⟨"10/06/2024", 100, "c", "f"⟩] (by decide)
      ⟨"15/06/2024", 200, "c", "f"⟩ (by decide) ⟨2024, 6, 15⟩ (by decide)⟩

/-- C4: The category and supplier aggregations each return a table sorted in
descending order of summed total; for every non-empty result the row with the
maximum total is first. -/
theorem c4_desc_sorted (db : DB) :
    List.Sorted relDesc (load_despesas_por_categoria db)
    ∧ List.Sorted relDesc (load_despesas_por_fornecedor db)
    ∧ (∀ h t, load_despesas_por_categoria db = h :: t →
        ∀ x ∈ load_despesas_por_categoria db, x.2 ≤ h.2)
    ∧ (∀ h t, load_despesas_por_fornecedor db = h :: t →
        ∀ x ∈ load_despesas_por_fornecedor db, x.2 ≤ h.2) := by
  refine ⟨groupSumDesc_sorted _, groupSumDesc_sorted _, ?_, ?_⟩
  · exact fun h t hht => sorted_head_max (groupSumDesc_sorted _) h t hht
  · exact fun h t hht => sorted_head_max (groupSumDesc_sorted _) h t hht

theorem c4_desc_sorted_witness :
    ∀ x ∈ load_despesas_por_categoria
        ⟨[⟨"01/01/2024", 5, "k1", "f1"⟩, ⟨"02/01/2024", 9, "k2", "f1"⟩],
          [], [⟨"k1", "Aluguel"⟩, ⟨"k2", "Energia"⟩], [], ⟨2024, 6, 15⟩⟩,
      x.2 ≤ (("Energia", (9 : Int)) : String × Int).2 :=
  (c4_desc_sorted
      ⟨[⟨"01/01/2024", 5, "k1", "f1"⟩, ⟨"02/01/2024", 9, "k2", "f1"⟩],
        [], [⟨"k1", "Aluguel"⟩, ⟨"k2", "Energia"⟩], [], ⟨2024, 6, 15⟩⟩).2.2.1
    ("Energia", 9) [("Aluguel", 5)] (by decide)
theorem rowsParse_mem (rows : List ContaRow) (prows : List (Date × Int))
    (h : rowsParse rows = some prows) :
    ∀ p ∈ prows, ∃ cr ∈ rows,
      parseDateDMY cr.data_vencimento = some p.1
      ∧ cr.valor_documento = p.2 := by
  intro p hp
  unfold rowsParse at h
  cases hw : rowsWithDates ContaRow.data_vencimento rows <;> rw [hw] at h
  · simp at h
  · rename_i ps
    simp only [Option.map_some', Option.some.injEq] at h
    subst h
    rw [List.mem_map] at hp
    obtain ⟨q, hq, rfl⟩ := hp
    have hmem := (rowsWithDates_mem ContaRow.data_vencimento rows ps hw
      q.1 q.2).mp (by rw [Prod.mk.eta]; exact hq)
    exact ⟨q.1, hmem.1, hmem.2, rfl⟩

/-- C5: The monthly expense trend returns rows sorted in ascending order of
month, and every month appearing in the output is the first calendar day of a
month that occurs in at least one input due date. -/
theorem c5_tendencias_sorted (db : DB) (out : List (Date × Int))
    (hout : load_tendencias_despesas db = some out) :
    List.Sorted Date.le (out.map Prod.fst)
    ∧ ∀ m ∈ out.map Prod.fst,
        m.day = 1
        ∧ ∃ r ∈ db.contapagar, ∃ d, parseDateDMY r.data_vencimento = some d
            ∧ monthTrunc d = m := by
  unfold load_tendencias_despesas at hout
  cases hps : rowsParse (db.contapagar.map CPRow.toConta) <;> rw [hps] at hout
  · simp at hout
  · rename_i prows
    simp only [Option.map_some', Option.some.injEq] at hout
    subst hout
    refine ⟨tendenciasAux_sorted prows, ?_⟩
    intro m hm
    obtain ⟨p, hp, hpt⟩ := tendenciasAux_mem_fst prows m hm
    obtain ⟨cr, hcr, hparse, _⟩ := rowsParse_mem _ prows hps p hp
    rw [List.mem_map] at hcr
    obtain ⟨r, hr, rfl⟩ := hcr
    subst hpt
    exact ⟨rfl, r, hr, p.1, hparse, rfl⟩

theorem c5_tendencias_sorted_witness :
    List.Sorted Date.le
      ([((⟨2024, 1, 1⟩ : Date), (150 : Int)), (⟨2024, 2, 1⟩, 30)].map Prod.fst)
    ∧ ∀ m ∈ ([((⟨2024, 1, 1⟩ : Date), (150 : Int)), (⟨2024, 2, 1⟩, 30)].map
          Prod.fst),
        m.day = 1
        ∧ ∃ r ∈ [(⟨"15/01/2024", 150, "c", "f"⟩ : CPRow),
              ⟨"01/02/2024", 30, "c", "f"⟩],
            ∃ d, parseDateDMY r.data_vencimento = some d ∧ monthTrunc d = m :=
  c5_tendencias_sorted
    ⟨[⟨"15/01/2024", 150, "c", "f"⟩, ⟨"01/02/2024", 30, "c", "f"⟩],
      [], [], [], ⟨2024, 6, 15⟩⟩
    [(⟨2024, 1, 1⟩, 150), (⟨2024, 2, 1⟩, 30)] (by decide)

/-- C9: Monthly bucketing conserves the total: for every expense table, the
sum of the per-month summed amounts in the monthly series (both the SQL
monthly trend and the cash-flow chart's pandas grouping) equals the total
expenses computed over the whole table. -/
theorem c9_conservation (db : DB) (out : List (Date × Int))
    (hout : load_tendencias_despesas db = some out) :
    (out.map Prod.snd).sum = total_valor (db.contapagar.map CPRow.toConta)
    ∧ ∀ prows, rowsParse (db.contapagar.map CPRow.toConta) = some prows →
        ((despesas_monthly prows).map Prod.snd).sum
          = total_valor (db.contapagar.map CPRow.toConta) := by
  constructor
  · unfold load_tendencias_despesas at hout
    cases hps : rowsParse (db.contapagar.map CPRow.toConta) <;> rw [hps] at hout
    · simp at hout
    · rename_i prows
      simp only [Option.map_some', Option.some.injEq] at hout
      subst hout
      rw [tendenciasAux_sum, rowsParse_map_snd _ prows hps]
      rfl
  · intro prows hps
    rw [despesas_monthly_sum, rowsParse_map_snd _ prows hps]
    rfl

theorem c9_conservation_witness :
    (([((⟨2024, 1, 1⟩ : Date), (150 : Int)), (⟨2024, 2, 1⟩, 30)].map
        Prod.snd).sum
      = total_valor ([(⟨"15/01/2024", 150, "c", "f"⟩ : CPRow),
          ⟨"01/02/2024", 30, "c", "f"⟩].map CPRow.toConta))
    ∧ ∀ prows,
        rowsParse ([(⟨"15/01/2024", 150, "c", "f"⟩ : CPRow),
            ⟨"01/02/2024", 30, "c", "f"⟩].map CPRow.toConta) = some prows →
          ((despesas_monthly prows).map Prod.snd).sum
            = total_valor ([(⟨"15/01/2024", 150, "c", "f"⟩ : CPRow),
                ⟨"01/02/2024", 30, "c", "f"⟩].map CPRow.toConta) :=
  c9_conservation
    ⟨[⟨"15/01/2024", 150, "c", "f"⟩, ⟨"01/02/2024", 30, "c", "f"⟩],
      [], [], [], ⟨2024, 6, 15⟩⟩
    [(⟨2024, 1, 1⟩, 150), (⟨2024, 2, 1⟩, 30)] (by decide)
theorem dispatch_case (l : String) (f : DB → List Widget)
    (hf : (l, f) ∈ dashboards)
    (hu : ∀ g, (l, g) ∈ dashboards → g = f)
    (hm : ∀ db, main' db l = some (f db)) :
    (∃! g : DB → List Widget, (l, g) ∈ dashboards)
    ∧ ∀ db : DB, ∃ g : DB → List Widget,
        (l, g) ∈ dashboards ∧ main' db l = some (g db) :=
  ⟨⟨f, hf, hu⟩, fun db => ⟨f, hf, hm db⟩⟩

/-- C10: Navigation dispatch is total and single-valued: the selection control
offers exactly the five report labels, each label maps to exactly one
report-rendering function, the lookup of the selected label never fails, and
exactly one report function is invoked per selection. -/
theorem c10_dispatch :
    dashboards.map Prod.fst
      = ["Fluxo de Caixa", "Despesas por Categoria", "Despesas por Fornecedor",
         "Pagamentos Vencidos", "Tendências de Despesas"]
    ∧ (dashboards.map Prod.fst).Nodup
    ∧ ∀ escolha ∈ dashboards.map Prod.fst,
        (∃! f : DB → List Widget, (escolha, f) ∈ dashboards)
        ∧ ∀ db : DB, ∃ f : DB → List Widget,
            (escolha, f) ∈ dashboards ∧ main' db escolha = some (f db) := by
  refine ⟨rfl, by decide, ?_⟩
  intro escolha hmem
  simp only [dashboards, List.map_cons, List.map_nil, List.mem_cons,
    List.not_mem_nil, or_false] at hmem
  rcases hmem with rfl | rfl | rfl | rfl | rfl
  · exact dispatch_case _ dashboard_fluxo_caixa (by simp [dashboards])
      (fun g hg => by simp [dashboards] at hg; exact hg) (fun db => rfl)
  · exact dispatch_case _ dashboard_despesas_categoria (by simp [dashboards])
      (fun g hg => by simp [dashboards] at hg; exact hg) (fun db => rfl)
  · exact dispatch_case _ dashboard_despesas_fornecedor (by simp [dashboards])
      (fun g hg => by simp [dashboards] at hg; exact hg) (fun db => rfl)
  · exact dispatch_case _ dashboard_pagamentos_vencidos (by simp [dashboards])
      (fun g hg => by simp [dashboards] at hg; exact hg) (fun db => rfl)
  · exact dispatch_case _ dashboard_tendencias (by simp [dashboards])
      (fun g hg => by simp [dashboards] at hg; exact hg) (fun db => rfl)

theorem c10_dispatch_witness :
    (∃! f : DB → List Widget, ("Pagamentos Vencidos", f) ∈ dashboards)
    ∧ ∀ db : DB, ∃ f : DB → List Widget,
        ("Pagamentos Vencidos", f) ∈ dashboards
        ∧ main' db "Pagamentos Vencidos" = some (f db) :=
  c10_dispatch.2.2 "Pagamentos Vencidos" (by simp [dashboards])
